import Mathlib

/-!
Verification of the CryptoVault analytics service (src/app.py) against its
natural-language specification.  The source is shallowly embedded: prices and
times are rationals, Python `None` is `Option.none`, a fetch function that may
raise is an `Option` of its result, and the module-level cache dictionaries
become an explicit state record threaded through `get_cached_data`.
-/

set_option maxHeartbeats 1000000

namespace CryptoVault

/-- State of the module-level cache of src/app.py lines 23-24: the two
dictionaries `data_cache` and `cache_timestamp`, modelled as maps from keys to
optional entries (a key absent from the Python dict is `none`). -/
structure CacheState (K V : Type) where
  data_cache : K → Option V
  cache_timestamp : K → Option ℚ

/-- CACHE_DURATION from src/app.py line 25 (seconds). -/
def CACHE_DURATION : ℚ := 300

/-- Result of one `get_cached_data` call: the returned value (`none` models the
Python return value `None`), the cache state after the call, and whether
`fetch_func` was invoked. -/
structure GetResult (K V : Type) where
  result : Option V
  state : CacheState K V
  invokedFetch : Bool

/-- Store `(value, time)` for `key` in both cache dictionaries
(src/app.py lines 41-42). -/
def setEntry {K V : Type} [DecidableEq K] (st : CacheState K V) (key : K)
    (v : V) (t : ℚ) : CacheState K V :=
  ⟨fun k => if k = key then some v else st.data_cache k,
   fun k => if k = key then some t else st.cache_timestamp k⟩

/-- Embedding of `get_cached_data` (src/app.py lines 27-50).  The outcome of
`fetch_func(*args, **kwargs)` is passed as `fetch_func : Option V`
(`some data` = the call returned `data`, `none` = it raised).  The Python
freshness test requires the key in both dictionaries and
`current_time - cache_timestamp[key] < CACHE_DURATION`; on a raising fetch the
stale value is returned when present, else `None`, and the state is untouched. -/
def get_cached_data {K V : Type} [DecidableEq K] (st : CacheState K V) (key : K)
    (fetch_func : Option V) (current_time : ℚ) : GetResult K V :=
  let fresh : Option V :=
    match st.data_cache key, st.cache_timestamp key with
    | some v, some ts => if current_time - ts < CACHE_DURATION then some v else none
    | _, _ => none
  match fresh with
  | some v => ⟨some v, st, false⟩
  | none =>
    match fetch_func with
    | some data => ⟨some data, setEntry st key data current_time, true⟩
    | none =>
      match st.data_cache key with
      | some v => ⟨some v, st, true⟩
      | none => ⟨none, st, true⟩

/-- Demonstration cache state holding value `5` fetched at time `0` under
key `0`. -/
def cacheDemoState : CacheState ℕ ℚ :=
  ⟨fun k => if k = 0 then some 5 else none,
   fun k => if k = 0 then some 0 else none⟩

/-- C1.  A `get_cached_data` call within the 300-second TTL of a previous
successful fetch (entry `v` stored at `t0`, `now - t0 < 300`) returns the
stored value, does not invoke the fetch function, and leaves the cache state
unchanged; a call after TTL expiry whose fetch function raises returns the
previously stored value and leaves the cache state — in particular the stored
(value, timestamp) pair — unchanged. -/
theorem get_cached_data_fresh_and_stale {K V : Type} [DecidableEq K]
    (st : CacheState K V) (key : K) (fetch_func : Option V) (now t0 : ℚ) (v : V)
    (hd : st.data_cache key = some v) (ht : st.cache_timestamp key = some t0) :
    (now - t0 < CACHE_DURATION →
      (get_cached_data st key fetch_func now).result = some v ∧
      (get_cached_data st key fetch_func now).invokedFetch = false ∧
      (get_cached_data st key fetch_func now).state = st) ∧
    (CACHE_DURATION ≤ now - t0 → fetch_func = none →
      (get_cached_data st key fetch_func now).result = some v ∧
      (get_cached_data st key fetch_func now).state = st) := by
  constructor
  · intro hfresh
    simp [get_cached_data, hd, ht, hfresh]
  · intro hexp hfail
    have hlt : ¬ now - t0 < CACHE_DURATION := not_lt.mpr hexp
    simp [get_cached_data, hd, ht, hlt, hfail]

/-- Closed witness for C1: on the demonstration state the fresh branch at time
100 returns the cached `5` without invoking the fetch, and at time 400 (past
the 300 s TTL) a raising fetch still returns `5` with an unchanged state. -/
theorem get_cached_data_fresh_and_stale_witness :
    ((get_cached_data cacheDemoState 0 (some 7) 100).result = some 5 ∧
     (get_cached_data cacheDemoState 0 (some 7) 100).invokedFetch = false ∧
     (get_cached_data cacheDemoState 0 (some 7) 100).state = cacheDemoState) ∧
    ((get_cached_data cacheDemoState 0 (none : Option ℚ) 400).result = some 5 ∧
     (get_cached_data cacheDemoState 0 (none : Option ℚ) 400).state = cacheDemoState) := by
  have h1 := get_cached_data_fresh_and_stale cacheDemoState 0 (some 7) 100 0 5 rfl rfl
  have h2 := get_cached_data_fresh_and_stale cacheDemoState 0 (none : Option ℚ) 400 0 5 rfl rfl
  exact ⟨h1.1 (by norm_num [CACHE_DURATION]), h2.2 (by norm_num [CACHE_DURATION]) rfl⟩

/-- C2.  `get_cached_data` returns the no-value sentinel `none` (Python `None`,
the `Unavailable` outcome) if and only if the fetch function fails and no value
was ever successfully stored for the key; in every other case a value is
returned, so a fetch failure with an existing (possibly expired) entry surfaces
no error to the caller. -/
theorem get_cached_data_none_iff {K V : Type} [DecidableEq K]
    (st : CacheState K V) (key : K) (fetch_func : Option V) (now : ℚ) :
    (get_cached_data st key fetch_func now).result = none ↔
      fetch_func = none ∧ st.data_cache key = none := by
  rcases hd : st.data_cache key with _ | v <;>
    rcases ht : st.cache_timestamp key with _ | ts <;>
    rcases fetch_func with _ | d <;>
    simp [get_cached_data, hd, ht] <;>
    split <;> simp

/-- Trading signal strings 'BUY' / 'SELL' / 'HOLD' of src/app.py. -/
inductive Signal : Type
  | BUY
  | SELL
  | HOLD
deriving DecidableEq, Repr

/-- Majority vote with tie-break, the shared aggregation of
src/app.py lines 158-168 (per-timeframe, over the RSI/MACD/MA signals) and
lines 202-216 (report level, over the three timeframes' overall signals):
count BUY/SELL/HOLD occurrences, then
`BUY if buy > sell and buy >= hold`, `SELL if sell > buy and sell >= hold`,
otherwise `HOLD`. -/
def voteOverall (signals : List Signal) : Signal :=
  let buy := signals.count .BUY
  let sell := signals.count .SELL
  let hold := signals.count .HOLD
  if buy > sell ∧ buy ≥ hold then .BUY
  else if sell > buy ∧ sell ≥ hold then .SELL
  else .HOLD

/-- C3.  For every 3-element signal vote: if one signal occurs strictly more
often than each of the other two the aggregated overall signal is that signal,
and a 1-1-1 split yields HOLD.  `voteOverall` is exactly the aggregation used
both per timeframe and at report level. -/
theorem voteOverall_majority (a b c : Signal) :
    (([a, b, c].count Signal.SELL < [a, b, c].count Signal.BUY ∧
        [a, b, c].count Signal.HOLD < [a, b, c].count Signal.BUY →
        voteOverall [a, b, c] = Signal.BUY) ∧
     ([a, b, c].count Signal.BUY < [a, b, c].count Signal.SELL ∧
        [a, b, c].count Signal.HOLD < [a, b, c].count Signal.SELL →
        voteOverall [a, b, c] = Signal.SELL) ∧
     ([a, b, c].count Signal.BUY < [a, b, c].count Signal.HOLD ∧
        [a, b, c].count Signal.SELL < [a, b, c].count Signal.HOLD →
        voteOverall [a, b, c] = Signal.HOLD)) ∧
    ([a, b, c].count Signal.BUY = 1 ∧ [a, b, c].count Signal.SELL = 1 ∧
        [a, b, c].count Signal.HOLD = 1 →
        voteOverall [a, b, c] = Signal.HOLD) := by
  cases a <;> cases b <;> cases c <;> decide

/-- Closed witness for C3: a 2-1-0 BUY majority aggregates to BUY, a 2-0-1
HOLD majority aggregates to HOLD, and a 1-1-1 split aggregates to HOLD. -/
theorem voteOverall_majority_witness :
    voteOverall [Signal.BUY, Signal.BUY, Signal.SELL] = Signal.BUY ∧
    voteOverall [Signal.HOLD, Signal.HOLD, Signal.BUY] = Signal.HOLD ∧
    voteOverall [Signal.BUY, Signal.SELL, Signal.HOLD] = Signal.HOLD := by
  refine ⟨(voteOverall_majority .BUY .BUY .SELL).1.1 (by decide),
          (voteOverall_majority .HOLD .HOLD .BUY).1.2.2 (by decide),
          (voteOverall_majority .BUY .SELL .HOLD).2 (by decide)⟩

/-- One OHLCV candle of the normalized DataFrame built in
`fetch_binance_klines` (src/app.py lines 106-117); `date` is a day number
standing for the calendar date. -/
structure Candle : Type where
  timestamp : ℕ
  date : ℤ
  open_ : ℚ
  high : ℚ
  low : ℚ
  close : ℚ
  volume : ℚ
deriving DecidableEq, Repr

/-- Pandas `.tail(n)`: the last `n` elements of a list (all of them when the
list is shorter). -/
def takeLast {α : Type} (n : ℕ) (l : List α) : List α :=
  l.drop (l.length - n)

/-- Arithmetic mean of a list of rationals (0 for the empty list, as the
callers never take the mean of an empty series). -/
def mean (l : List ℚ) : ℚ :=
  l.sum / l.length

/-- Guard of src/app.py line 244: `R2 = 1 - ss_res/ss_tot if ss_tot > 0 else
0.0`. -/
def r2Of (ssRes ssTot : ℚ) : ℚ :=
  if 0 < ssTot then 1 - ssRes / ssTot else 0

/-- Guarded MAPE denominator `np.maximum(y, 1e-9)` of src/app.py line 241. -/
def mapeDenom (y : ℚ) : ℚ :=
  max y (1 / 1000000000)

/-- Guarded NVT denominator `max(tx_count, 1)` of src/app.py line 282. -/
def nvtDenom (tx : ℕ) : ℕ :=
  max tx 1

/-- Guarded MVRV denominator `max(avg_close, 1e-12)` of src/app.py line 454. -/
def mvrvDenom (avg : ℚ) : ℚ :=
  max avg (1 / 1000000000000)

/-- Degree-1 least-squares fit `np.polyfit(x, y, 1)` over index positions
`x = 0..n-1` (external numpy routine; closed form of the least-squares line,
returned as (slope, intercept)).  Modelled from the spec: §4.4 "fit a degree-1
least-squares line over index positions 0..n-1". -/
def linfit (y : List ℚ) : ℚ × ℚ :=
  let n : ℚ := y.length
  let xs : List ℚ := (List.range y.length).map (fun i => (i : ℚ))
  let xbar := xs.sum / n
  let ybar := y.sum / n
  let sxx := (xs.map (fun x => (x - xbar) ^ 2)).sum
  let sxy := (List.zipWith (fun x yv => (x - xbar) * (yv - ybar)) xs y).sum
  let slope := sxy / sxx
  (slope, ybar - slope * xbar)

/-- Forecast output of `compute_lstm_like_prediction`.  The source reports
`RMSE = sqrt(mean(residual^2))`; to stay inside ℚ the record stores the mean
squared residual `mse` and `ForecastResult.rmse` below recovers the reported
root.  `dates` are the day numbers of the `days` consecutive calendar days
after the last candle date. -/
structure ForecastResult : Type where
  mse : ℚ
  mape : ℚ
  r2 : ℚ
  dates : List ℤ
  predictions : List ℚ
  current_price : ℚ
deriving DecidableEq, Repr

/-- The RMSE reported by the source: the square root of the stored mean
squared residual. -/
noncomputable def ForecastResult.rmse (f : ForecastResult) : ℝ :=
  Real.sqrt (f.mse : ℝ)

/-- Future forecast dates (src/app.py lines 249-250): `days` consecutive days
starting the day after the last candle date. -/
def futureDates (df : List Candle) (days : ℕ) : List ℤ :=
  (List.range days).map (fun i : ℕ => (df.getLast?.map (·.date)).getD 0 + 1 + (i : ℤ))

/-- Embedding of `compute_lstm_like_prediction` (src/app.py lines 225-260).
The trailing 60 closes are fitted with a degree-1 least-squares line when at
least 10 points are available, else the forecast is constant at the last
close with all metrics zero. -/
def compute_lstm_like_prediction (df : List Candle) (days : ℕ) : ForecastResult :=
  let close := df.map (·.close)
  let y := takeLast 60 close
  let n := y.length
  if n < 10 then
    { mse := 0, mape := 0, r2 := 0,
      dates := futureDates df days,
      predictions := List.replicate days (close.getLast?.getD 0),
      current_price := close.getLast?.getD 0 }
  else
    let fit := linfit y
    let xs : List ℚ := (List.range n).map (fun i => (i : ℚ))
    let yhat := xs.map (fun x => fit.1 * x + fit.2)
    let residual := List.zipWith (fun a b => a - b) y yhat
    let mse := mean (residual.map (fun r => r ^ 2))
    let mape := mean (List.zipWith (fun r yv => |r / mapeDenom yv|) residual y) * 100
    let ssRes := (residual.map (fun r => r ^ 2)).sum
    let ssTot := (y.map (fun v => (v - mean y) ^ 2)).sum
    { mse := mse, mape := mape, r2 := r2Of ssRes ssTot,
      dates := futureDates df days,
      predictions := (List.range days).map (fun i : ℕ => fit.1 * ((n : ℚ) + (i : ℚ)) + fit.2),
      current_price := close.getLast?.getD 0 }

/-- C4.  For every non-empty candle list and horizon: when the trailing window
(last 60 closes, fewer if unavailable) has fewer than 10 points the forecast
is the last close repeated for every horizon day with RMSE = MAPE = R2 = 0,
and in all cases the predictions list has exactly `days` entries. -/
theorem lstm_short_window_and_length (df : List Candle) (days : ℕ)
    (h : df ≠ []) :
    ((takeLast 60 (df.map (·.close))).length < 10 →
      (compute_lstm_like_prediction df days).predictions
          = List.replicate days ((df.map (·.close)).getLast?.getD 0) ∧
      (compute_lstm_like_prediction df days).rmse = 0 ∧
      (compute_lstm_like_prediction df days).mape = 0 ∧
      (compute_lstm_like_prediction df days).r2 = 0) ∧
    (compute_lstm_like_prediction df days).predictions.length = days := by
  constructor
  · intro hshort
    simp [compute_lstm_like_prediction, hshort, ForecastResult.rmse]
  · have hlen : ∀ g : ℕ → ℚ, ((List.range days).map g).length = days := by
      intro g
      rw [List.length_map, List.length_range]
    by_cases hshort : (takeLast 60 (df.map (·.close))).length < 10
    · simp [compute_lstm_like_prediction, hshort]
    · simp only [compute_lstm_like_prediction, if_neg hshort]
      exact hlen _

/-- Closed witness for C4: two candles with closes 1 and 2 fall in the short
branch, so the 3-day forecast is `[2, 2, 2]` (three entries) and the metrics
vanish. -/
theorem lstm_short_window_and_length_witness :
    (compute_lstm_like_prediction
        [⟨0, 0, 1, 1, 1, 1, 1⟩, ⟨1, 1, 2, 2, 2, 2, 2⟩] 3).predictions
      = List.replicate 3 2 ∧
    (compute_lstm_like_prediction
        [⟨0, 0, 1, 1, 1, 1, 1⟩, ⟨1, 1, 2, 2, 2, 2, 2⟩] 3).mape = 0 ∧
    (compute_lstm_like_prediction
        [⟨0, 0, 1, 1, 1, 1, 1⟩, ⟨1, 1, 2, 2, 2, 2, 2⟩] 3).predictions.length = 3 := by
  have h := lstm_short_window_and_length
    [⟨0, 0, 1, 1, 1, 1, 1⟩, ⟨1, 1, 2, 2, 2, 2, 2⟩] 3 (by simp)
  have hs := h.1 (by simp [takeLast])
  refine ⟨?_, hs.2.2.1, h.2⟩
  simpa using hs.1

/-- Sentiment class strings 'POSITIVE' / 'NEGATIVE' / 'NEUTRAL' of
src/app.py lines 267-278. -/
inductive SentimentClass : Type
  | POSITIVE
  | NEGATIVE
  | NEUTRAL
deriving DecidableEq, Repr

/-- Sentiment label strings 'BULLISH' / 'BEARISH' / 'NEUTRAL' of
src/app.py lines 267-278. -/
inductive SentimentLabel : Type
  | BULLISH
  | BEARISH
  | NEUTRAL
deriving DecidableEq, Repr

/-- Combined sentiment score of src/app.py lines 264-265:
`priceChangePercent/100 + (50 - rsi)/100`, clamped to [-1, 1] by
`max(-1.0, min(1.0, score))`. -/
def compute_sentiment_score (price_change_percent rsi_val : ℚ) : ℚ :=
  max (-1) (min 1 (price_change_percent / 100 + (50 - rsi_val) / 100))

/-- Classification cascade of src/app.py lines 267-278 applied to the clamped
score: `> 0.15` is BUY/POSITIVE/BULLISH, `< -0.15` is SELL/NEGATIVE/BEARISH,
otherwise HOLD/NEUTRAL/NEUTRAL. -/
def classify_sentiment (s : ℚ) : Signal × SentimentClass × SentimentLabel :=
  if s > 15 / 100 then (.BUY, .POSITIVE, .BULLISH)
  else if s < -(15 / 100) then (.SELL, .NEGATIVE, .BEARISH)
  else (.HOLD, .NEUTRAL, .NEUTRAL)

/-- C5.  For every 24h price-change percent `p` and 1-day RSI `r` the sentiment
score is `p/100 + (50 - r)/100` clamped to [-1, 1]; the classification is
BUY/POSITIVE/BULLISH exactly when the clamped score exceeds 0.15,
SELL/NEGATIVE/BEARISH exactly when it is below -0.15, and HOLD/NEUTRAL/NEUTRAL
otherwise; and `p = 10`, `r = 20` give score 2/5 = 0.40 with classification
BUY/POSITIVE/BULLISH. -/
theorem sentiment_score_classification (p r : ℚ) :
    compute_sentiment_score p r
        = max (-1) (min 1 (p / 100 + (50 - r) / 100)) ∧
    (classify_sentiment (compute_sentiment_score p r)
        = (Signal.BUY, SentimentClass.POSITIVE, SentimentLabel.BULLISH)
      ↔ 15 / 100 < compute_sentiment_score p r) ∧
    (classify_sentiment (compute_sentiment_score p r)
        = (Signal.SELL, SentimentClass.NEGATIVE, SentimentLabel.BEARISH)
      ↔ compute_sentiment_score p r < -(15 / 100)) ∧
    (classify_sentiment (compute_sentiment_score p r)
        = (Signal.HOLD, SentimentClass.NEUTRAL, SentimentLabel.NEUTRAL)
      ↔ -(15 / 100) ≤ compute_sentiment_score p r ∧
        compute_sentiment_score p r ≤ 15 / 100) ∧
    (compute_sentiment_score 10 20 = 2 / 5 ∧
      classify_sentiment (compute_sentiment_score 10 20)
        = (Signal.BUY, SentimentClass.POSITIVE, SentimentLabel.BULLISH)) := by
  have hscore : compute_sentiment_score 10 20 = 2 / 5 := by
    norm_num [compute_sentiment_score]
  refine ⟨rfl, ?_, ?_, ?_, hscore, ?_⟩
  · constructor
    · intro hc
      unfold classify_sentiment at hc
      split_ifs at hc with h1 h2
      · exact h1
      · exact absurd hc (by decide)
      · exact absurd hc (by decide)
    · intro hlt
      unfold classify_sentiment
      rw [if_pos hlt]
  · constructor
    · intro hc
      unfold classify_sentiment at hc
      split_ifs at hc with h1 h2
      · exact absurd hc (by decide)
      · exact h2
      · exact absurd hc (by decide)
    · intro hlt
      unfold classify_sentiment
      rw [if_neg (not_lt.mpr (by linarith)), if_pos hlt]
  · constructor
    · intro hc
      unfold classify_sentiment at hc
      split_ifs at hc with h1 h2
      · exact absurd hc (by decide)
      · exact absurd hc (by decide)
      · exact ⟨not_lt.mp h2, not_lt.mp h1⟩
    · rintro ⟨ha, hb⟩
      unfold classify_sentiment
      rw [if_neg (not_lt.mpr hb), if_neg (not_lt.mpr ha)]
  · rw [hscore]
    norm_num [classify_sentiment]

/-- C9.  The numeric guards the computation layer substitutes for raw
divisions are sound for every input: the MAPE denominator `max(y, 1e-9)` is
strictly positive, the MVRV denominator `max(avg_close, 1e-12)` is strictly
positive, the NVT denominator `max(tx_count, 1)` is at least 1, and `r2Of`
returns the sentinel 0 whenever `ss_tot` is not positive — so no division in
`compute_lstm_like_prediction`, `compute_sentiment` or the MVRV computation of
`get_analysis` ever divides by zero, and no error is raised for these numeric
edge cases. -/
theorem numeric_guards (y avg : ℚ) (tx : ℕ) (ssRes ssTot : ℚ) :
    0 < mapeDenom y ∧ 0 < mvrvDenom avg ∧ 1 ≤ nvtDenom tx ∧
    (¬ 0 < ssTot → r2Of ssRes ssTot = 0) := by
  refine ⟨?_, ?_, ?_, ?_⟩
  · exact lt_of_lt_of_le (by norm_num) (le_max_right y (1 / 1000000000))
  · exact lt_of_lt_of_le (by norm_num) (le_max_right avg (1 / 1000000000000))
  · exact le_max_right tx 1
  · intro h
    simp [r2Of, h]

/-- Closed witness for C9: the guards at `y = -3`, `avg_close = 0`,
`tx_count = 0` and the R2 sentinel at `ss_tot = 0`. -/
theorem numeric_guards_witness :
    0 < mapeDenom (-3) ∧ 0 < mvrvDenom 0 ∧ 1 ≤ nvtDenom 0 ∧ r2Of 5 0 = 0 := by
  have h := numeric_guards (-3) 0 0 5 0
  exact ⟨h.1, h.2.1, h.2.2.1, h.2.2.2 (by norm_num)⟩

/-- Pandas `close.diff(1)` dropping the leading NaN: the list of consecutive
price changes `c[i] - c[i-1]`. -/
def diffs (closes : List ℚ) : List ℚ :=
  List.zipWith (fun prev next => next - prev) closes closes.tail

/-- Wilder recurrence `a' = (a*(w-1) + x)/w` emitting every running average,
seed included. -/
def wilderGo (w : ℚ) (a : ℚ) : List ℚ → List ℚ
  | [] => [a]
  | x :: rest => a :: wilderGo w ((a * (w - 1) + x) / w) rest

/-- Wilder smoothed averages of a gain/loss list: seeded with the arithmetic
mean of the first `w` entries, then the Wilder recurrence over the rest; empty
when fewer than `w` entries are available.  Modelled from the spec: §4.2
"Wilder's smoothing of average gain/average loss over trailing window" (the
indicator internals live in the external `ta` library, not in src/). -/
def wilderAvg (w : ℕ) (xs : List ℚ) : List ℚ :=
  if xs.length < w ∨ w = 0 then []
  else wilderGo (w : ℚ) ((xs.take w).sum / (w : ℚ)) (xs.drop w)

/-- One RSI value from the smoothed average gain and loss:
`RSI = 100 - 100/(1+RS)`, `RS = avgGain/avgLoss`, and `RSI = 100` when
`avgLoss = 0`.  Modelled from the spec: §4.2 RSI formula. -/
def rsiPoint (avgGain avgLoss : ℚ) : ℚ :=
  if avgLoss = 0 then 100 else 100 - 100 / (1 + avgGain / avgLoss)

/-- RSI series over a close-price list, aligned 1:1 with the closes: the first
`w` positions are undefined (`none`, the pandas NaN head), the rest pair the
Wilder-smoothed average gains and losses through `rsiPoint`.  Modelled from
the spec: §4.2 RSI(window=14) (the `RSIIndicator` internals live in the
external `ta` library, not in src/). -/
def rsiValues (w : ℕ) (closes : List ℚ) : List (Option ℚ) :=
  let changes := diffs closes
  let gains := changes.map (fun c => max c 0)
  let losses := changes.map (fun c => max (-c) 0)
  if changes.length < w ∨ w = 0 then List.replicate closes.length none
  else
    List.replicate w none ++
      (List.zipWith rsiPoint (wilderAvg w gains) (wilderAvg w losses)).map some

/-- Every element of a `zipWith` image comes from a pair of elements of the
two input lists. -/
theorem mem_zipWith_exists {α β γ : Type} (f : α → β → γ) :
    ∀ (as : List α) (bs : List β) (v : γ), v ∈ List.zipWith f as bs →
      ∃ a, a ∈ as ∧ ∃ b, b ∈ bs ∧ v = f a b := by
  intro as
  induction as with
  | nil => intro bs v h; simp at h
  | cons a as ih =>
    intro bs v h
    cases bs with
    | nil => simp at h
    | cons b bs =>
      rw [List.zipWith_cons_cons] at h
      rcases List.mem_cons.mp h with h | h
      · exact ⟨a, List.mem_cons_self a _, b, List.mem_cons_self b _, h⟩
      · rcases ih bs v h with ⟨a', ha', b', hb', hv⟩
        exact ⟨a', List.mem_cons_of_mem _ ha', b', List.mem_cons_of_mem _ hb', hv⟩

/-- The Wilder recurrence preserves non-negativity when the window is at
least 1. -/
theorem wilderGo_nonneg (w : ℚ) (hw : 1 ≤ w) :
    ∀ (xs : List ℚ) (a : ℚ), 0 ≤ a → (∀ x ∈ xs, 0 ≤ x) →
      ∀ y ∈ wilderGo w a xs, 0 ≤ y := by
  intro xs
  induction xs with
  | nil =>
    intro a ha _ y hy
    simp [wilderGo] at hy
    exact hy ▸ ha
  | cons x xs ih =>
    intro a ha hxs y hy
    simp only [wilderGo, List.mem_cons] at hy
    rcases hy with rfl | hy
    · exact ha
    · refine ih _ ?_ (fun z hz => hxs z (List.mem_cons_of_mem _ hz)) y hy
      have hx : 0 ≤ x := hxs x (List.mem_cons_self x xs)
      have : 0 ≤ a * (w - 1) := mul_nonneg ha (by linarith)
      exact div_nonneg (by linarith) (by linarith)

/-- The Wilder recurrence maps an all-zero list with zero seed to zeros. -/
theorem wilderGo_zero (w : ℚ) :
    ∀ (xs : List ℚ) (a : ℚ), a = 0 → (∀ x ∈ xs, x = 0) →
      ∀ y ∈ wilderGo w a xs, y = 0 := by
  intro xs
  induction xs with
  | nil =>
    intro a ha _ y hy
    simp [wilderGo] at hy
    exact hy ▸ ha
  | cons x xs ih =>
    intro a ha hxs y hy
    simp only [wilderGo, List.mem_cons] at hy
    rcases hy with rfl | hy
    · exact ha
    · refine ih _ ?_ (fun z hz => hxs z (List.mem_cons_of_mem _ hz)) y hy
      rw [ha, hxs x (List.mem_cons_self x xs)]
      simp

/-- Wilder-smoothed averages of a non-negative list are non-negative. -/
theorem wilderAvg_nonneg (w : ℕ) (xs : List ℚ) (hxs : ∀ x ∈ xs, 0 ≤ x) :
    ∀ y ∈ wilderAvg w xs, 0 ≤ y := by
  intro y hy
  unfold wilderAvg at hy
  split_ifs at hy with hguard
  · simp at hy
  · push_neg at hguard
    have hw : (1 : ℚ) ≤ (w : ℚ) := by
      exact_mod_cast Nat.one_le_iff_ne_zero.mpr hguard.2
    refine wilderGo_nonneg (w : ℚ) hw _ _ ?_ ?_ y hy
    · refine div_nonneg (List.sum_nonneg ?_) (by linarith)
      intro x hx
      exact hxs x (List.take_subset _ _ hx)
    · intro x hx
      exact hxs x (List.drop_subset _ _ hx)

/-- Wilder-smoothed averages of an all-zero list are all zero. -/
theorem wilderAvg_zero (w : ℕ) (xs : List ℚ) (hxs : ∀ x ∈ xs, x = 0) :
    ∀ y ∈ wilderAvg w xs, y = 0 := by
  intro y hy
  unfold wilderAvg at hy
  split_ifs at hy with hguard
  · simp at hy
  · refine wilderGo_zero (w : ℚ) _ _ ?_ ?_ y hy
    · rw [List.sum_eq_zero (fun x hx => hxs x (List.take_subset _ _ hx))]
      simp
    · intro x hx
      exact hxs x (List.drop_subset _ _ hx)

/-- A single RSI reading from non-negative smoothed averages lies in
[0, 100]. -/
theorem rsiPoint_bounds (ag al : ℚ) (hag : 0 ≤ ag) (hal : 0 ≤ al) :
    0 ≤ rsiPoint ag al ∧ rsiPoint ag al ≤ 100 := by
  unfold rsiPoint
  split_ifs with h
  · norm_num
  · have hal' : 0 < al := lt_of_le_of_ne hal (Ne.symm h)
    have hrs : 0 ≤ ag / al := div_nonneg hag hal'.le
    have h1 : (0 : ℚ) < 1 + ag / al := by linarith
    have h2 : 100 / (1 + ag / al) ≤ 100 := by
      rw [div_le_iff₀ h1]
      nlinarith
    have h3 : 0 < 100 / (1 + ag / al) := by positivity
    constructor <;> linarith

/-- C8.  Every defined RSI(14) value computed by the spec's Wilder recurrence
lies in [0, 100], and every defined value is exactly 100 when all price
changes of the window are gains (so the average loss is 0). -/
theorem rsi_range_and_all_gains (closes : List ℚ) :
    (∀ v : ℚ, some v ∈ rsiValues 14 closes → 0 ≤ v ∧ v ≤ 100) ∧
    ((∀ c ∈ diffs closes, 0 < c) →
      ∀ v : ℚ, some v ∈ rsiValues 14 closes → v = 100) := by
  have hgain : ∀ x ∈ (diffs closes).map (fun c => max c 0), 0 ≤ x := by
    intro x hx
    rcases List.mem_map.mp hx with ⟨c, -, rfl⟩
    exact le_max_right c 0
  have hloss : ∀ x ∈ (diffs closes).map (fun c => max (-c) 0), 0 ≤ x := by
    intro x hx
    rcases List.mem_map.mp hx with ⟨c, -, rfl⟩
    exact le_max_right (-c) 0
  constructor
  · intro v hv
    simp only [rsiValues] at hv
    by_cases hlen : (diffs closes).length < 14
    · rw [if_pos (Or.inl hlen)] at hv
      exact absurd (List.eq_of_mem_replicate hv) (by simp)
    · rw [if_neg (by simp [hlen])] at hv
      rcases List.mem_append.mp hv with hL | hR
      · exact absurd (List.eq_of_mem_replicate hL) (by simp)
      · rcases List.mem_map.mp hR with ⟨u, hu, hsome⟩
        obtain rfl : u = v := Option.some.inj hsome
        rcases mem_zipWith_exists rsiPoint _ _ u hu with ⟨ag, hag, al, hal, rfl⟩
        exact rsiPoint_bounds ag al (wilderAvg_nonneg 14 _ hgain ag hag)
          (wilderAvg_nonneg 14 _ hloss al hal)
  · intro hpos v hv
    have hloss0 : ∀ x ∈ (diffs closes).map (fun c => max (-c) 0), x = 0 := by
      intro x hx
      rcases List.mem_map.mp hx with ⟨c, hc, rfl⟩
      have := hpos c hc
      exact max_eq_right (by linarith)
    simp only [rsiValues] at hv
    by_cases hlen : (diffs closes).length < 14
    · rw [if_pos (Or.inl hlen)] at hv
      exact absurd (List.eq_of_mem_replicate hv) (by simp)
    · rw [if_neg (by simp [hlen])] at hv
      rcases List.mem_append.mp hv with hL | hR
      · exact absurd (List.eq_of_mem_replicate hL) (by simp)
      · rcases List.mem_map.mp hR with ⟨u, hu, hsome⟩
        obtain rfl : u = v := Option.some.inj hsome
        rcases mem_zipWith_exists rsiPoint _ _ u hu with ⟨ag, hag, al, hal, rfl⟩
        rw [wilderAvg_zero 14 _ hloss0 al hal]
        simp [rsiPoint]

/-- Fifteen strictly increasing closes, giving fourteen gains of 1 each. -/
def rsiDemoCloses : List ℚ :=
  [1, 2, 3, 4, 5, 6, 7, 8, 9, 10, 11, 12, 13, 14, 15]

/-- Closed witness for C8: on fifteen strictly increasing closes the RSI(14)
series actually contains the defined value 100, that value is inside [0, 100],
and every defined value of the series is 100 because all changes are gains. -/
theorem rsi_range_and_all_gains_witness :
    some (100 : ℚ) ∈ rsiValues 14 rsiDemoCloses ∧
    (0 ≤ (100 : ℚ) ∧ (100 : ℚ) ≤ 100) ∧
    (∀ v : ℚ, some v ∈ rsiValues 14 rsiDemoCloses → v = 100) := by
  have hdiffs : diffs rsiDemoCloses
      = [1, 1, 1, 1, 1, 1, 1, 1, 1, 1, 1, 1, 1, 1] := by
    norm_num [diffs, rsiDemoCloses, List.zipWith]
  have hmax1 : max (1 : ℚ) 0 = 1 := max_eq_left (by norm_num)
  have hmaxneg : max (-(1 : ℚ)) 0 = 0 := max_eq_right (by norm_num)
  have htake : List.take 14 [(1 : ℚ), 1, 1, 1, 1, 1, 1, 1, 1, 1, 1, 1, 1, 1]
      = [1, 1, 1, 1, 1, 1, 1, 1, 1, 1, 1, 1, 1, 1] := rfl
  have hdrop : List.drop 14 [(1 : ℚ), 1, 1, 1, 1, 1, 1, 1, 1, 1, 1, 1, 1, 1]
      = [] := rfl
  have htake0 : List.take 14 [(0 : ℚ), 0, 0, 0, 0, 0, 0, 0, 0, 0, 0, 0, 0, 0]
      = [0, 0, 0, 0, 0, 0, 0, 0, 0, 0, 0, 0, 0, 0] := rfl
  have hdrop0 : List.drop 14 [(0 : ℚ), 0, 0, 0, 0, 0, 0, 0, 0, 0, 0, 0, 0, 0]
      = [] := rfl
  have hsum1 : ([(1 : ℚ), 1, 1, 1, 1, 1, 1, 1, 1, 1, 1, 1, 1, 1]).sum = 14 := by
    norm_num
  have hgainsAvg : wilderAvg 14 [(1 : ℚ), 1, 1, 1, 1, 1, 1, 1, 1, 1, 1, 1, 1, 1]
      = [1] := by
    rw [wilderAvg, if_neg (by norm_num), htake, hdrop, hsum1]
    norm_num [wilderGo]
  have hlossAvg : wilderAvg 14 [(0 : ℚ), 0, 0, 0, 0, 0, 0, 0, 0, 0, 0, 0, 0, 0]
      = [0] := by
    rw [wilderAvg, if_neg (by norm_num), htake0, hdrop0]
    norm_num [wilderGo]
  have hval : rsiValues 14 rsiDemoCloses
      = List.replicate 14 none ++ [some 100] := by
    simp only [rsiValues, hdiffs]
    rw [if_neg (by norm_num)]
    norm_num [hmax1, hmaxneg, hgainsAvg, hlossAvg, List.zipWith, rsiPoint]
  have hmem : some (100 : ℚ) ∈ rsiValues 14 rsiDemoCloses := by
    rw [hval]
    simp
  have hpos : ∀ c ∈ diffs rsiDemoCloses, (0 : ℚ) < c := by
    intro c hc
    rw [hdiffs] at hc
    simp at hc
    rw [hc]
    norm_num
  exact ⟨hmem, (rsi_range_and_all_gains rsiDemoCloses).1 100 hmem,
    (rsi_range_and_all_gains rsiDemoCloses).2 hpos⟩

/-- SMA(w) series aligned 1:1 with the closes: the arithmetic mean of the
trailing `w` closes, undefined (`none`) before index `w-1`.  Modelled from the
spec: §4.2 SMA (the `SMAIndicator` internals live in the external `ta`
library, not in src/). -/
def smaList (w : ℕ) (closes : List ℚ) : List (Option ℚ) :=
  (List.range closes.length).map (fun i =>
    if w ≤ i + 1 ∧ 0 < w then
      some (((closes.drop (i + 1 - w)).take w).sum / (w : ℚ))
    else none)

/-- EMA recurrence `ema' = x*k + ema*(1-k)` emitting every value, seed
included. -/
def emaGo (k : ℚ) (a : ℚ) : List ℚ → List ℚ
  | [] => [a]
  | x :: rest => a :: emaGo k (x * k + a * (1 - k)) rest

/-- EMA(w) series aligned 1:1 with the closes: seeded with SMA(w) at index
`w-1`, recurrence `ema[i] = c[i]*k + ema[i-1]*(1-k)` with `k = 2/(w+1)`,
undefined before the seed index.  Modelled from the spec: §4.2 EMA (the
`EMAIndicator` internals live in the external `ta` library, not in src/). -/
def emaList (w : ℕ) (closes : List ℚ) : List (Option ℚ) :=
  if closes.length < w ∨ w = 0 then List.replicate closes.length none
  else
    List.replicate (w - 1) none ++
      (emaGo (2 / ((w : ℚ) + 1)) ((closes.take w).sum / (w : ℚ)) (closes.drop w)).map some

/-- Pointwise combination of two aligned optional series, defined where both
are. -/
def optZip (f : ℚ → ℚ → ℚ) (a b : List (Option ℚ)) : List (Option ℚ) :=
  List.zipWith (fun x y =>
    match x, y with
    | some u, some v => some (f u v)
    | _, _ => none) a b

/-- MACD line `EMA(12) - EMA(26)` aligned 1:1 with the closes.  Modelled from
the spec: §4.2 MACD (the `MACD` internals live in the external `ta` library,
not in src/). -/
def macdList (closes : List ℚ) : List (Option ℚ) :=
  optZip (fun a b => a - b) (emaList 12 closes) (emaList 26 closes)

/-- Number of leading undefined entries of an optional series. -/
def leadingNones (l : List (Option ℚ)) : ℕ :=
  (l.takeWhile Option.isNone).length

/-- MACD signal line: EMA(9) of the defined suffix of the MACD line, keeping
the leading undefined prefix in place.  Modelled from the spec: §4.2
"signal = EMA(9) of macd". -/
def macdSignalList (closes : List ℚ) : List (Option ℚ) :=
  let m := macdList closes
  let lead := leadingNones m
  List.replicate lead none ++ emaList 9 ((m.drop lead).reduceOption)

/-- Trailing population variance over `w` closes, aligned 1:1 with the closes
and undefined before index `w-1`.  The Bollinger bands of the source are
`middle ± 2*sqrt(variance)` with `middle = SMA(20)`; the variance is kept
instead of the standard deviation so the embedding stays inside ℚ (no claim
depends on the band values themselves).  Modelled from the spec: §4.2
Bollinger Bands (external `ta` library). -/
def bbVarList (w : ℕ) (closes : List ℚ) : List (Option ℚ) :=
  (List.range closes.length).map (fun i =>
    if w ≤ i + 1 ∧ 0 < w then
      some
        (let win := (closes.drop (i + 1 - w)).take w
         let m := win.sum / (w : ℚ)
         (win.map (fun x => (x - m) ^ 2)).sum / (w : ℚ))
    else none)

/-- Pandas `Series.ffill()`: replace each undefined entry by the most recent
defined value before it, carrying `carry` in from the left. -/
def ffillGo (carry : Option ℚ) : List (Option ℚ) → List (Option ℚ)
  | [] => []
  | x :: rest =>
    match x with
    | some v => some v :: ffillGo (some v) rest
    | none => carry :: ffillGo carry rest

/-- Pandas `Series.ffill()`. -/
def ffill (l : List (Option ℚ)) : List (Option ℚ) :=
  ffillGo none l

/-- Pandas `Series.bfill()`: forward fill on the reversed series. -/
def bfill (l : List (Option ℚ)) : List (Option ℚ) :=
  (ffill l.reverse).reverse

/-- Pandas `Series.fillna(c)` with a constant: replace remaining undefined
entries by `c`. -/
def fillnaC (c : ℚ) (l : List (Option ℚ)) : List ℚ :=
  l.map (fun o => o.getD c)

/-- Pandas `Series.fillna(close)` with an aligned series: replace each
remaining undefined entry by the close price at the same index. -/
def fillnaS (closes : List ℚ) (l : List (Option ℚ)) : List ℚ :=
  List.zipWith (fun o c => o.getD c) l closes

/-- Last value of an optional series with the fallback of src/app.py lines
144-152: the series' last entry when the series is non-empty and that entry is
defined (non-NaN), otherwise the fallback constant. -/
def lastDef (l : List (Option ℚ)) (fb : ℚ) : ℚ :=
  match l.getLast? with
  | some (some v) => v
  | _ => fb

/-- One indicator's current reading and derived signal, as emitted in the
`oscillators` / `moving_averages` dictionaries of `compute_for_window`. -/
structure IndicatorReading : Type where
  value : ℚ
  signal : Signal
deriving DecidableEq, Repr

/-- Output of `compute_for_window` (src/app.py lines 126-196) for one
timeframe window: current oscillator and moving-average readings with their
signals, the overall signal with its vote summary and per-indicator details,
and the last-90-points series after forward fill, backward fill and constant
fallback.  The Bollinger upper/lower series are represented by
`series_bb_var` (see `bbVarList`). -/
structure TfAnalysis : Type where
  rsi : IndicatorReading
  macd : IndicatorReading
  sma_20 : IndicatorReading
  sma_50 : IndicatorReading
  ema_12 : IndicatorReading
  ema_26 : IndicatorReading
  overall_signal : Signal
  buy : ℕ
  sell : ℕ
  hold : ℕ
  detail_rsi : Signal
  detail_macd : Signal
  detail_ma : Signal
  series_rsi : List ℚ
  series_macd : List ℚ
  series_macd_signal : List ℚ
  series_sma_20 : List ℚ
  series_sma_50 : List ℚ
  series_bb_middle : List ℚ
  series_bb_var : List (Option ℚ)
deriving DecidableEq, Repr

/-- Embedding of the inner `compute_for_window` (src/app.py lines 126-196)
over the window's close prices. -/
def compute_for_window (df_window : List Candle) : TfAnalysis :=
  let close := df_window.map (·.close)
  let rsi_series := rsiValues 14 close
  let macd_series := macdList close
  let macd_signal_series := macdSignalList close
  let sma_20_series := smaList 20 close
  let sma_50_series := smaList 50 close
  let ema_12_series := emaList 12 close
  let ema_26_series := emaList 26 close
  let bb_var := bbVarList 20 close
  let lastClose := close.getLast?.getD 0
  let rsi_last := lastDef rsi_series 50
  let macd_last := lastDef macd_series 0
  let macd_signal_last := lastDef macd_signal_series 0
  let macd_hist_last := macd_last - macd_signal_last
  let sma_20_last := lastDef sma_20_series lastClose
  let sma_50_last := lastDef sma_50_series lastClose
  let ema_12_last := lastDef ema_12_series lastClose
  let ema_26_last := lastDef ema_26_series lastClose
  let rsi_signal : Signal :=
    if rsi_last < 30 then .BUY else if rsi_last > 70 then .SELL else .HOLD
  let macd_sig : Signal :=
    if macd_hist_last > 0 then .BUY else if macd_hist_last < 0 then .SELL else .HOLD
  let ma_signal : Signal :=
    if sma_20_last > sma_50_last then .BUY
    else if sma_20_last < sma_50_last then .SELL else .HOLD
  let signals := [rsi_signal, macd_sig, ma_signal]
  { rsi := ⟨rsi_last, rsi_signal⟩,
    macd := ⟨macd_last, macd_sig⟩,
    sma_20 := ⟨sma_20_last, if lastClose > sma_20_last then .BUY else .SELL⟩,
    sma_50 := ⟨sma_50_last, ma_signal⟩,
    ema_12 := ⟨ema_12_last, if ema_12_last > ema_26_last then .BUY else .SELL⟩,
    ema_26 := ⟨ema_26_last, if ema_12_last > ema_26_last then .BUY else .SELL⟩,
    overall_signal := voteOverall signals,
    buy := signals.count .BUY,
    sell := signals.count .SELL,
    hold := signals.count .HOLD,
    detail_rsi := rsi_signal,
    detail_macd := macd_sig,
    detail_ma := ma_signal,
    series_rsi := takeLast 90 (fillnaC 50 (bfill (ffill rsi_series))),
    series_macd := takeLast 90 (fillnaC 0 (bfill (ffill macd_series))),
    series_macd_signal := takeLast 90 (fillnaC 0 (bfill (ffill macd_signal_series))),
    series_sma_20 := takeLast 90 (fillnaS close (bfill (ffill sma_20_series))),
    series_sma_50 := takeLast 90 (fillnaS close (bfill (ffill sma_50_series))),
    series_bb_middle := takeLast 90 (fillnaS close (bfill (ffill sma_20_series))),
    series_bb_var := takeLast 90 bb_var }

/-- Output of `compute_technical_analysis` (src/app.py lines 198-223): the
three timeframe analyses and the report-level overall signal obtained by the
same majority vote over their overall signals. -/
structure TechResult : Type where
  overall_signal : Signal
  tf1d : TfAnalysis
  tf1w : TfAnalysis
  tf1m : TfAnalysis
deriving DecidableEq, Repr

/-- Embedding of `compute_technical_analysis` (src/app.py lines 198-223):
the "1d" and "1m" timeframes are both computed on `df.tail(90)` and "1w" on
`df.tail(30)`, then the three overall signals are majority-voted. -/
def compute_technical_analysis (df : List Candle) : TechResult :=
  let tf_1d := compute_for_window (takeLast 90 df)
  let tf_1w := compute_for_window (takeLast 30 df)
  let tf_1m := compute_for_window (takeLast 90 df)
  { overall_signal :=
      voteOverall [tf_1d.overall_signal, tf_1w.overall_signal, tf_1m.overall_signal],
    tf1d := tf_1d,
    tf1w := tf_1w,
    tf1m := tf_1m }

/-- C7.  For every input candle window the "1d" and "1m" timeframe analyses
are identical — equal oscillators, moving averages, signals and series —
because both are computed by the same pure `compute_for_window` over the
identical trailing-90-candle window. -/
theorem technical_1d_eq_1m (df : List Candle) :
    (compute_technical_analysis df).tf1d = (compute_technical_analysis df).tf1m := rfl

/-- Python `round(x, 6)`: rounding to six decimal places.  (Python uses
banker's rounding at exact ties; the embedding rounds half up, which agrees
with it everywhere except at exact multiples of 5e-7, and no claim depends on
the tie behaviour.) -/
def round6 (x : ℚ) : ℚ :=
  (round (x * 1000000) : ℚ) / 1000000

/-- Output of `compute_sentiment` (src/app.py lines 284-299).  `news_count` is
the constant 0 of the source; `nvt` is the `nvt_ratio` entry (the quote volume
is always a float at the call site, so the `'N/A'` branch for a `None` quote
volume is dead code and not modelled). -/
structure SentimentResult : Type where
  symbol : String
  combined_score : ℚ
  combined_signal : Signal
  sentiment : SentimentLabel
  sentiment_class : SentimentClass
  news_count : ℕ
  active_addresses : ℕ
  transaction_count : ℕ
  nvt : ℚ
  mvrv : ℚ
deriving DecidableEq, Repr

/-- Embedding of `compute_sentiment` (src/app.py lines 262-299): combine the
24h price change and the 1d RSI into the clamped score, classify it, and
derive the on-chain-style heuristics. -/
def compute_sentiment (symbol : String) (price_change_percent : ℚ)
    (technical : TechResult) (trade_count_24h : ℕ) (quote_volume_24h : ℚ)
    (mvrv : ℚ) : SentimentResult :=
  let rsi_val := technical.tf1d.rsi.value
  let combined_score := compute_sentiment_score price_change_percent rsi_val
  let cls := classify_sentiment combined_score
  let tx_count := trade_count_24h
  let active_addresses := max 0 (tx_count / 120)
  let nvt := round6 (quote_volume_24h / (nvtDenom tx_count : ℚ))
  { symbol := symbol,
    combined_score := combined_score,
    combined_signal := cls.1,
    sentiment := cls.2.2,
    sentiment_class := cls.2.1,
    news_count := 0,
    active_addresses := active_addresses,
    transaction_count := tx_count,
    nvt := nvt,
    mvrv := mvrv }

/-- One 24h ticker record as consumed by `get_analysis` (src/app.py lines
436-440, 452): each field behind `ticker.get(...)` is optional, `none`
standing for a missing or falsy entry. -/
structure Ticker : Type where
  symbol : String
  lastPrice : Option ℚ
  priceChangePercent : Option ℚ
  volume : Option ℚ
  quoteVolume : Option ℚ
  count : Option ℕ
deriving DecidableEq, Repr

/-- The analysis report assembled by `get_analysis` (src/app.py lines
460-475).  The request timestamp, the reasoning string and the chart payloads
(`build_charts`, a pure reshaping excluded by the spec's scope) are not
modelled. -/
structure Report : Type where
  symbol : String
  current_price : ℚ
  price_change_percent : ℚ
  volume_24h : ℚ
  quote_volume_24h : ℚ
  technical_analysis : TechResult
  lstm_prediction : ForecastResult
  sentiment_analysis : SentimentResult
  final_signal : Signal
  confidence : ℤ
deriving DecidableEq, Repr

/-- `period_to_limit` mapping of src/app.py lines 432-433 with its default of
90 (the period string arrives already lower-cased). -/
def period_to_limit (period : String) : ℕ :=
  if period = "7d" then 7 else if period = "30d" then 30
  else if period = "90d" then 90 else 90

/-- Confidence of the final recommendation (src/app.py line 458):
`min(95, max(55, 70 + (buy - sell) * 10))` over the 1d vote summary. -/
def confidenceOf (buy sell : ℕ) : ℤ :=
  min 95 (max 55 (70 + ((buy : ℤ) - (sell : ℤ)) * 10))

/-- Report construction of `get_analysis` (src/app.py lines 435-475) once a
non-empty candle DataFrame is at hand: resolve the ticker fields with their
fallbacks, restrict to the requested period, and run the technical analysis,
forecast and sentiment engines. -/
def build_report (tickers : List Ticker) (symbol : String) (limit : ℕ)
    (df : List Candle) : Report :=
  let ticker := tickers.find? (fun t => t.symbol == symbol)
  let price_change_percent := (ticker.bind (·.priceChangePercent)).getD 0
  let volume_24h := (ticker.bind (·.volume)).getD 0
  let quote_volume_24h := (ticker.bind (·.quoteVolume)).getD 0
  let df_period := takeLast limit df
  let closes := df_period.map (·.close)
  let current_price := (ticker.bind (·.lastPrice)).getD (closes.getLast?.getD 0)
  let technical := compute_technical_analysis df_period
  let lstm := compute_lstm_like_prediction df_period 7
  let trade_count_24h := (ticker.bind (·.count)).getD 0
  let avg_close := if closes = [] then current_price else mean closes
  let mvrv := round6 (current_price / mvrvDenom avg_close)
  let sentiment :=
    compute_sentiment symbol price_change_percent technical trade_count_24h
      quote_volume_24h mvrv
  { symbol := symbol,
    current_price := current_price,
    price_change_percent := price_change_percent,
    volume_24h := volume_24h,
    quote_volume_24h := quote_volume_24h,
    technical_analysis := technical,
    lstm_prediction := lstm,
    sentiment_analysis := sentiment,
    final_signal := technical.overall_signal,
    confidence := confidenceOf technical.tf1d.buy technical.tf1d.sell }

/-- Embedding of the route handler `get_analysis` (src/app.py lines 429-480).
`tickers` is the (possibly empty) ticker list obtained through the cache and
`klines` the cached klines fetch result; `none` or an empty DataFrame fails
the request with the source's error message (line 443-444), returning no
report. -/
def get_analysis (tickers : List Ticker) (symbol period : String)
    (klines : Option (List Candle)) : Except String Report :=
  let limit := period_to_limit period
  match klines with
  | none => Except.error "Unable to fetch historical data for analysis"
  | some df =>
    if df = [] then Except.error "Unable to fetch historical data for analysis"
    else Except.ok (build_report tickers symbol limit df)

/-- C6.  For every request whose candle source yields an empty window (and
likewise when the klines fetch is entirely unavailable), `get_analysis` fails
with the source's error response and produces no report: no technical
analysis, forecast or sentiment is computed on the empty data. -/
theorem get_analysis_empty_window_fails (tickers : List Ticker)
    (symbol period : String) :
    get_analysis tickers symbol period (some [])
        = Except.error "Unable to fetch historical data for analysis" ∧
    get_analysis tickers symbol period none
        = Except.error "Unable to fetch historical data for analysis" :=
  ⟨rfl, rfl⟩

/-- C10.  Every report produced by `get_analysis` carries
`final_recommendation.confidence = min(95, max(55, 70 + (buy - sell)*10))`
over the 1d timeframe's vote summary, hence the confidence always lies in the
integer range [55, 95]. -/
theorem confidence_formula_and_bounds (tickers : List Ticker)
    (symbol period : String) (klines : Option (List Candle)) (r : Report)
    (h : get_analysis tickers symbol period klines = Except.ok r) :
    r.confidence
        = min 95 (max 55 (70 + ((r.technical_analysis.tf1d.buy : ℤ)
            - (r.technical_analysis.tf1d.sell : ℤ)) * 10)) ∧
    55 ≤ r.confidence ∧ r.confidence ≤ 95 := by
  have hb : ∀ b s : ℕ, 55 ≤ confidenceOf b s ∧ confidenceOf b s ≤ 95 := by
    intro b s
    unfold confidenceOf
    constructor
    · exact le_min (by norm_num) (le_max_left 55 _)
    · exact min_le_left 95 _
  cases klines with
  | none => simp [get_analysis] at h
  | some df =>
    by_cases hdf : df = []
    · simp [get_analysis, hdf] at h
    · simp only [get_analysis, if_neg hdf] at h
      obtain rfl : build_report tickers symbol (period_to_limit period) df = r :=
        Except.ok.inj h
      exact ⟨rfl, hb _ _⟩

/-- Single demonstration candle for the C10 witness. -/
def demoCandle : Candle :=
  ⟨0, 0, 1, 1, 1, 1, 1⟩

/-- Closed witness for C10: the report produced for a one-candle window has
its confidence equal to the clamped formula and inside [55, 95]. -/
theorem confidence_formula_and_bounds_witness :
    55 ≤ (build_report [] "X" 7 [demoCandle]).confidence ∧
    (build_report [] "X" 7 [demoCandle]).confidence ≤ 95 := by
  have h := confidence_formula_and_bounds [] "X" "7d" (some [demoCandle])
    (build_report [] "X" 7 [demoCandle]) (by rfl)
  exact h.2

end CryptoVault
